import Mathlib

/-!
# go_server_basics: request handlers and the task model

A shallow embedding of `cmd/web/handlers.go` and `internals/models/tasks.go`.

A Go handler receives a `http.ResponseWriter` and a `*http.Request` and acts only
through calls on them and on the `application` value.  A handler is therefore
embedded as the sequence of calls it issues (`List Call`), in program order.
The effect of such a sequence on a response is given separately by `respond`.

Go values are rendered as follows: `int` is `Int`, `string` is `String`, a
nilable `error` is `Option Error`, a pointer `*T` is `Option T`, a result pair
`(a, b)` is a product.
-/

namespace GoServerBasics

/-! ## Library types: `net/url`, `net/http`, `strconv` -/

/-- Value of a Go `error` that is not nil, carried as its message. -/
abbrev Error := String

/-- Type `url.Values`: the parsed query parameters, each key with its values. -/
abbrev Values := List (String × List String)

/-- Function `url.Values.Get`: the first value of `key`, or `""` when the key has none. -/
def Values.Get (v : Values) (key : String) : String :=
  match v.lookup key with
  | some (x :: _) => x
  | _ => ""

/-- Type `url.URL`, with the path and the parsed query (`r.URL.Query()`). -/
structure URL where
  Path : String
  Query : Values
  deriving DecidableEq, Repr

/-- Type `http.Request`: the fields the handlers read. -/
structure Request where
  Method : String
  URL : URL
  deriving DecidableEq, Repr

/-- Errors of `strconv`: `strconv.ErrSyntax` and `strconv.ErrRange`. -/
inductive NumError where
  | ErrSyntax
  | ErrRange
  deriving DecidableEq, Repr

/-- Value of a decimal digit byte, `none` for any other character
(`ch -= 48; if ch > 9` in `strconv`). -/
def digitVal (c : Char) : Option Nat :=
  if 48 ≤ c.toNat ∧ c.toNat ≤ 57 then some (c.toNat - 48) else none

/-- Digit loop of `strconv.Atoi`: `n = n*10 + int(ch)`, failing on a non-digit. -/
def parseDigits : List Char → Nat → Option Nat
  | [], n => some n
  | c :: cs, n =>
    match digitVal c with
    | none => none
    | some d => parseDigits cs (n * 10 + d)

/-- Size of Go `int` in bits on the 64-bit targets. -/
def intSize : Nat := 64

/-- Function `strconv.Atoi` on its character list: an optional sign, then at
least one decimal digit, and a value that fits `int`.  As in Go the result is a
pair: `(n, nil)` on success, `(0, ErrSyntax)` on malformed input and the nearest
representable value with `ErrRange` when the number does not fit. -/
def atoiChars : List Char → Int × Option NumError
  | [] => (0, some .ErrSyntax)
  | c :: cs =>
    let neg := decide (c = '-')
    let ds := if c = '-' ∨ c = '+' then cs else c :: cs
    if ds = [] then (0, some .ErrSyntax)
    else
      match parseDigits ds 0 with
      | none => (0, some .ErrSyntax)
      | some un =>
        let cutoff : Nat := 2 ^ (intSize - 1)
        if ¬ neg ∧ un ≥ cutoff then ((cutoff : Int) - 1, some .ErrRange)
        else if neg ∧ un > cutoff then (-(cutoff : Int), some .ErrRange)
        else if neg then (-(un : Int), none)
        else ((un : Int), none)

/-- Function `strconv.Atoi`. -/
def Atoi (s : String) : Int × Option NumError := atoiChars s.data

/-- Constant `http.StatusNotFound`. -/
def StatusNotFound : Nat := 404

/-- Constant `http.StatusMethodNotAllowed`. -/
def StatusMethodNotAllowed : Nat := 405

/-- Constant `http.StatusInternalServerError`. -/
def StatusInternalServerError : Nat := 500

/-- Function `http.StatusText` on the codes this program uses. -/
def StatusText (code : Nat) : String :=
  if code = 404 then "Not Found"
  else if code = 405 then "Method Not Allowed"
  else if code = 500 then "Internal Server Error"
  else ""

/-- Type `*template.Template` when not nil: the files it was parsed from. -/
structure Template where
  files : List String
  deriving DecidableEq, Repr

/-- The templating collaborator (`html/template` over the file system), which
the handlers call into.  `ParseFiles` gives the pair `(ts, err)` returned by
`template.ParseFiles(files...)`; `ExecuteTemplate` gives, for a parsed template
and a template name, the bytes written to the response and the returned error. -/
structure Templates where
  ParseFiles : List String → Option Template × Option Error
  ExecuteTemplate : Template → String → String × Option Error

/-! ## Calls issued by a handler -/

/-- One call made by a handler, on the response writer `w`, on the loggers, on
the `application` helpers or on the templating collaborator. -/
inductive Call where
  /-- Call `log.Print(r.URL)`. -/
  | logPrint (u : URL)
  /-- Call `app.infoLog.Print(r.URL)`. -/
  | infoLogPrint (u : URL)
  /-- Call `http.NotFound(w, r)`. -/
  | httpNotFound
  /-- Call `http.Error(w, msg, code)`. -/
  | httpError (msg : String) (code : Nat)
  /-- Call `w.Header().Set(key, value)`. -/
  | headerSet (key value : String)
  /-- Call `w.WriteHeader(code)`. -/
  | writeHeader (code : Nat)
  /-- Call `w.Write(b)`, also through `fmt.Fprintf(w, ...)`. -/
  | write (b : String)
  /-- Call `app.notFound(w)`. -/
  | appNotFound
  /-- Call `app.clientError(w, status)`. -/
  | appClientError (status : Nat)
  /-- Call `app.serverError(w, err)`. -/
  | appServerError (err : Error)
  /-- Call `template.ParseFiles(files...)`. -/
  | parseFiles (files : List String)
  /-- Call `ts.ExecuteTemplate(w, name, nil)`, with the bytes it wrote to `w`;
  `ts = none` is the call on a nil `*template.Template`. -/
  | executeTemplate (ts : Option Template) (name : String) (out : String)
  /-- The run-time panic that ends the handler (nil pointer dereference). -/
  | panic
  deriving DecidableEq, Repr

/-! ## `cmd/web/handlers.go` -/

/-- The template files listed in `home`. -/
def homeFiles : List String :=
  ["./ui/html/base.tmpl.html",
   "./ui/html/partials/nav.tmpl.html",
   "./ui/html/pages/home.tmpl.html"]

/-- The second half of `home`: `err = ts.ExecuteTemplate(w, "base", nil)` and the
check of its error.  On a nil `ts` the call dereferences nil and panics. -/
def homeExecute (T : Templates) : Option Template → List Call
  | none => [Call.executeTemplate none "base" "", Call.panic]
  | some ts =>
    let (out, err) := T.ExecuteTemplate ts "base"
    [Call.executeTemplate (some ts) "base" out] ++
      (match err with
       | some e => [Call.appServerError e, Call.httpError "Internal Server Error" 500]
       | none => [])

/-- Handler `home`. -/
def home (T : Templates) (r : Request) : List Call :=
  [Call.logPrint r.URL] ++
    if r.URL.Path ≠ "/" then
      [Call.httpNotFound]
    else
      let files := homeFiles
      let (ts, err) := T.ParseFiles files
      [Call.parseFiles files] ++
        (match err with
         | some e => [Call.appServerError e, Call.httpError "Internal Server Error" 500]
         | none => []) ++
        homeExecute T ts

/-- Handler `snippetView`. -/
def snippetView (r : Request) : List Call :=
  let (id, err) := Atoi (r.URL.Query.Get "id")
  if err ≠ none ∨ id < 1 then
    [Call.appNotFound]
  else
    [Call.infoLogPrint r.URL,
     Call.write ("<h1>Display a specific snippet with id = " ++ toString id ++ "...</h1>")]

/-- Handler `snippetCreate`. -/
def snippetCreate (r : Request) : List Call :=
  [Call.infoLogPrint r.URL] ++
    if r.Method ≠ "POST" then
      [Call.headerSet "Allow" "POST",
       Call.appClientError StatusMethodNotAllowed]
    else
      [Call.writeHeader 201,
       Call.write "Creating a snippet"]

/-! ## `internals/models/tasks.go` -/

/-- Type `time.Time`, as an instant on an integer time line. -/
abbrev Time := Int

/-- Type `Task`. -/
structure Task where
  ID : Int
  Title : String
  Description : String
  Done : String
  Created : Time
  Expires : Time
  deriving DecidableEq, Repr

/-- Type `sql.DB`: the connection pool, abstracted as the rows of the task
table it reaches. -/
structure SqlDB where
  rows : List Task
  deriving DecidableEq, Repr

/-- Type `TaskModel`, which wraps a `sql.DB` connection pool. -/
structure TaskModel where
  DB : SqlDB
  deriving DecidableEq, Repr

/-- Method `TaskModel.Insert`: `return 0, nil`. -/
def TaskModel.Insert (_m : TaskModel) (_title : String) (_description : String)
    (_expires : Int) : Int × Option Error :=
  (0, none)

/-- Method `TaskModel.Get`: `return nil, nil`. -/
def TaskModel.Get (_m : TaskModel) (_id : Int) : Option Task × Option Error :=
  (none, none)

/-- Method `TaskModel.Latest`: `return nil, nil`. -/
def TaskModel.Latest (_m : TaskModel) : Option (List Task) × Option Error :=
  (none, none)

/-! ## The response produced by a sequence of calls -/

/-- Type `http.Header`. -/
abbrev Header := List (String × List String)

/-- Method `http.Header.Set`: replace the values of `key` by the single `value`. -/
def Header.Set (h : Header) (key value : String) : Header :=
  (key, [value]) :: h.filter (fun kv => kv.1 ≠ key)

/-- Method `http.Header.Values`: all values of `key`. -/
def Header.Values (h : Header) (key : String) : List String :=
  (h.lookup key).getD []

/-- State of a `http.ResponseWriter`: the header map, the status line with the
headers sent by the first `WriteHeader` (`none` before it), and the body. -/
structure ResponseWriter where
  header : Header
  sent : Option (Nat × Header)
  body : String
  deriving DecidableEq, Repr

/-- A response on which nothing was written yet. -/
def ResponseWriter.fresh : ResponseWriter := ⟨[], none, ""⟩

/-- The status code sent, if any. -/
def ResponseWriter.status (w : ResponseWriter) : Option Nat := w.sent.map (·.1)

/-- The values of header `key` that were sent with the status line. -/
def ResponseWriter.sentValues (w : ResponseWriter) (key : String) : List String :=
  match w.sent with
  | some (_, h) => Header.Values h key
  | none => []

/-- Method `w.WriteHeader(code)`: sends the status line and the current headers;
a second call is superfluous and changes nothing. -/
def ResponseWriter.WriteHeader (w : ResponseWriter) (code : Nat) : ResponseWriter :=
  match w.sent with
  | some _ => w
  | none => { w with sent := some (code, w.header) }

/-- Method `w.Write(b)`: sends status 200 first when no status was sent. -/
def ResponseWriter.Write (w : ResponseWriter) (b : String) : ResponseWriter :=
  let w1 := w.WriteHeader 200
  { w1 with body := w1.body ++ b }

/-- Function `http.Error(w, msg, code)`: plain-text headers, the status, the
message and a newline. -/
def http_Error (w : ResponseWriter) (msg : String) (code : Nat) : ResponseWriter :=
  let h := (Header.Set w.header "Content-Type" "text/plain; charset=utf-8").Set
    "X-Content-Type-Options" "nosniff"
  (({ w with header := h } : ResponseWriter).WriteHeader code).Write (msg ++ "\n")

/-- Modelled from the spec: `app.clientError` is declared in a file that is not
among the sources.  The spec has error responses "carry a status code and a
minimal, non-leaking description": the helper answers with the given status and
its standard text. -/
def clientError (w : ResponseWriter) (status : Nat) : ResponseWriter :=
  http_Error w (StatusText status) status

/-- Modelled from the spec: `app.notFound` is declared in a file that is not
among the sources.  The spec maps the `NotFound` outcome to status 404. -/
def notFound (w : ResponseWriter) : ResponseWriter :=
  clientError w StatusNotFound

/-- Modelled from the spec: `app.serverError` is declared in a file that is not
among the sources.  The spec has the failure "logged and surfaced to the client
as a generic server error, without leaking internal detail". -/
def serverError (w : ResponseWriter) (_err : Error) : ResponseWriter :=
  http_Error w (StatusText StatusInternalServerError) StatusInternalServerError

/-- Effect of one call on the response. -/
def Call.apply (w : ResponseWriter) : Call → ResponseWriter
  | .logPrint _ => w
  | .infoLogPrint _ => w
  | .httpNotFound => http_Error w "404 page not found" StatusNotFound
  | .httpError msg code => http_Error w msg code
  | .headerSet key value => { w with header := Header.Set w.header key value }
  | .writeHeader code => w.WriteHeader code
  | .write b => w.Write b
  | .appNotFound => notFound w
  | .appClientError status => clientError w status
  | .appServerError err => serverError w err
  | .parseFiles _ => w
  | .executeTemplate _ _ out => if out = "" then w else w.Write out
  | .panic => w

/-- The response a handler leaves after its calls, from a fresh writer. -/
def respond (calls : List Call) : ResponseWriter :=
  calls.foldl Call.apply ResponseWriter.fresh

/-! ## Sample inputs -/

/-- A request `GET /snippet/view?id=abc`. -/
def viewAbc : Request := ⟨"GET", ⟨"/snippet/view", [("id", ["abc"])]⟩⟩

/-- A request `GET /snippet/view?id=1`. -/
def viewOne : Request := ⟨"GET", ⟨"/snippet/view", [("id", ["1"])]⟩⟩

/-- A request `GET /snippet/create`. -/
def createGet : Request := ⟨"GET", ⟨"/snippet/create", []⟩⟩

/-- A request `POST /snippet/create`. -/
def createPost : Request := ⟨"POST", ⟨"/snippet/create", []⟩⟩

/-- A request `GET /nonexistent`. -/
def getNonexistent : Request := ⟨"GET", ⟨"/nonexistent", []⟩⟩

/-- A request `GET /`. -/
def getRoot : Request := ⟨"GET", ⟨"/", []⟩⟩

/-- A task model over an empty table. -/
def emptyModel : TaskModel := ⟨⟨[]⟩⟩

/-- A templating collaborator whose template files cannot be read:
`template.ParseFiles` returns a nil template and an error. -/
def missingTemplates : Templates :=
  ⟨fun _ => (none, some "open ./ui/html/base.tmpl.html: no such file or directory"),
   fun _ _ => ("", none)⟩

/-! ## Lemmas on the handlers -/

theorem Values.Get_of_no_values (v : Values) (key : String)
    (h : (v.lookup key).getD [] = []) : Values.Get v key = "" := by
  unfold Values.Get
  cases hl : v.lookup key with
  | none => rfl
  | some vs =>
    cases vs with
    | nil => rfl
    | cons x xs => simp [hl] at h

theorem Atoi_empty : Atoi "" = (0, some NumError.ErrSyntax) := by decide

theorem snippetView_of_rejected (r : Request)
    (h : (Atoi (r.URL.Query.Get "id")).2 ≠ none ∨ (Atoi (r.URL.Query.Get "id")).1 < 1) :
    snippetView r = [Call.appNotFound] := by
  unfold snippetView
  simp only []
  rw [if_pos h]

theorem snippetView_of_accepted (r : Request) (id : Int)
    (hp : Atoi (r.URL.Query.Get "id") = (id, none)) (hid : 1 ≤ id) :
    snippetView r =
      [Call.infoLogPrint r.URL,
       Call.write ("<h1>Display a specific snippet with id = " ++ toString id ++ "...</h1>")] := by
  unfold snippetView
  simp only [hp]
  rw [if_neg]
  simp only [ne_eq, not_true_eq_false, false_or, not_lt]
  exact hid

theorem respond_log_write (u : URL) (b : String) :
    respond [Call.infoLogPrint u, Call.write b]
      = ⟨[], some (200, []), b⟩ := by
  simp [respond, Call.apply, ResponseWriter.Write, ResponseWriter.WriteHeader,
    ResponseWriter.fresh]

/-! ## Claims on the handlers -/

/-- C1: when the `id` query value is missing, or `strconv.Atoi` rejects it, or
it parses to an integer below 1, `snippetView` makes the single call
`app.notFound(w)`: it writes no body of its own, raises no server error, and the
response is a 404. -/
theorem snippetView_invalid_id_notFound (r : Request)
    (h : (r.URL.Query.lookup "id").getD [] = []
      ∨ (Atoi (r.URL.Query.Get "id")).2 ≠ none
      ∨ ((Atoi (r.URL.Query.Get "id")).2 = none ∧ (Atoi (r.URL.Query.Get "id")).1 < 1)) :
    snippetView r = [Call.appNotFound]
      ∧ (∀ b, Call.write b ∉ snippetView r)
      ∧ (∀ e, Call.appServerError e ∉ snippetView r)
      ∧ (respond (snippetView r)).status = some 404 := by
  have hv : snippetView r = [Call.appNotFound] := by
    apply snippetView_of_rejected
    rcases h with h | h | h
    · left
      rw [Values.Get_of_no_values _ _ h, Atoi_empty]
      simp
    · exact Or.inl h
    · exact Or.inr h.2
  rw [hv]
  refine ⟨rfl, ?_, ?_, ?_⟩
  · intro b
    simp
  · intro e
    simp
  · decide

/-- C1, at the request `GET /snippet/view?id=abc`. -/
theorem snippetView_invalid_id_notFound_witness :
    ((Atoi (viewAbc.URL.Query.Get "id")).2 ≠ none)
      ∧ snippetView viewAbc = [Call.appNotFound]
      ∧ (respond (snippetView viewAbc)).status = some 404 :=
  have h := snippetView_invalid_id_notFound viewAbc (Or.inr (Or.inl (by decide)))
  ⟨by decide, h.1, h.2.2.2⟩

/-- C2: for every method other than `POST`, `snippetCreate` sets the header
`Allow: POST` and calls `app.clientError(w, 405)`, so the response has status 405
with `Allow: POST`; it neither writes status 201 nor the confirmation body. -/
theorem snippetCreate_other_method_405 (r : Request) (h : r.Method ≠ "POST") :
    snippetCreate r =
        [Call.infoLogPrint r.URL, Call.headerSet "Allow" "POST",
         Call.appClientError StatusMethodNotAllowed]
      ∧ (respond (snippetCreate r)).status = some 405
      ∧ (respond (snippetCreate r)).sentValues "Allow" = ["POST"]
      ∧ Call.writeHeader 201 ∉ snippetCreate r
      ∧ Call.write "Creating a snippet" ∉ snippetCreate r
      ∧ (respond (snippetCreate r)).body ≠ "Creating a snippet" := by
  have hv : snippetCreate r =
      [Call.infoLogPrint r.URL, Call.headerSet "Allow" "POST",
       Call.appClientError StatusMethodNotAllowed] := by
    unfold snippetCreate
    rw [if_pos h]
    rfl
  have hr : respond (snippetCreate r) = respond (snippetCreate createGet) := by
    rw [hv]
    rfl
  rw [hr, hv]
  refine ⟨rfl, ?_, ?_, ?_, ?_, ?_⟩
  · decide
  · decide
  · simp
  · simp
  · decide

/-- C2, at the request `GET /snippet/create`. -/
theorem snippetCreate_other_method_405_witness :
    createGet.Method ≠ "POST"
      ∧ (respond (snippetCreate createGet)).status = some 405
      ∧ (respond (snippetCreate createGet)).sentValues "Allow" = ["POST"] :=
  have h := snippetCreate_other_method_405 createGet (by decide)
  ⟨by decide, h.2.1, h.2.2.1⟩

/-- C3: for method `POST`, `snippetCreate` writes status 201 and then the body
`Creating a snippet`, which is not empty, and sets no `Allow` header. -/
theorem snippetCreate_post_201 (r : Request) (h : r.Method = "POST") :
    snippetCreate r =
        [Call.infoLogPrint r.URL, Call.writeHeader 201, Call.write "Creating a snippet"]
      ∧ (respond (snippetCreate r)).status = some 201
      ∧ (respond (snippetCreate r)).body = "Creating a snippet"
      ∧ (respond (snippetCreate r)).body ≠ ""
      ∧ (∀ v, Call.headerSet "Allow" v ∉ snippetCreate r)
      ∧ Header.Values (respond (snippetCreate r)).header "Allow" = []
      ∧ (respond (snippetCreate r)).sentValues "Allow" = [] := by
  have hv : snippetCreate r =
      [Call.infoLogPrint r.URL, Call.writeHeader 201, Call.write "Creating a snippet"] := by
    unfold snippetCreate
    rw [if_neg (by simp [h])]
    rfl
  have hr : respond (snippetCreate r) = respond (snippetCreate createPost) := by
    rw [hv]
    rfl
  rw [hr, hv]
  refine ⟨rfl, ?_, ?_, ?_, ?_, ?_, ?_⟩
  · decide
  · decide
  · decide
  · intro v
    simp
  · decide
  · decide

/-- C3, at the request `POST /snippet/create`. -/
theorem snippetCreate_post_201_witness :
    createPost.Method = "POST"
      ∧ (respond (snippetCreate createPost)).status = some 201
      ∧ (respond (snippetCreate createPost)).body = "Creating a snippet" :=
  have h := snippetCreate_post_201 createPost (by decide)
  ⟨by decide, h.2.1, h.2.2.1⟩

/-- C4: for every path other than `/`, `home` logs the URL, calls
`http.NotFound(w, r)` and returns: the response is a 404 and no template is
parsed or executed, whatever the templating collaborator would do. -/
theorem home_other_path_404 (T : Templates) (r : Request) (h : r.URL.Path ≠ "/") :
    home T r = [Call.logPrint r.URL, Call.httpNotFound]
      ∧ (respond (home T r)).status = some 404
      ∧ (∀ fs, Call.parseFiles fs ∉ home T r)
      ∧ (∀ ts name out, Call.executeTemplate ts name out ∉ home T r) := by
  have hv : home T r = [Call.logPrint r.URL, Call.httpNotFound] := by
    unfold home
    rw [if_pos h]
    rfl
  rw [hv]
  refine ⟨rfl, ?_, ?_, ?_⟩
  · rfl
  · intro fs
    simp
  · intro ts name out
    simp

/-- C4, at the request `GET /nonexistent`. -/
theorem home_other_path_404_witness :
    getNonexistent.URL.Path ≠ "/"
      ∧ home missingTemplates getNonexistent
          = [Call.logPrint getNonexistent.URL, Call.httpNotFound]
      ∧ (respond (home missingTemplates getNonexistent)).status = some 404 :=
  have h := home_other_path_404 missingTemplates getNonexistent (by decide)
  ⟨by decide, h.1, h.2.1⟩

/-- C5, as stated, fails: the table is empty, so no row matches id 1, and yet
for `GET /snippet/view?id=1` the handler `snippetView` never calls
`app.notFound`; it writes the placeholder page with status 200. -/
theorem snippetView_no_row_counterexample :
    (∀ t ∈ emptyModel.DB.rows, t.ID ≠ 1)
      ∧ Atoi (viewOne.URL.Query.Get "id") = (1, none)
      ∧ snippetView viewOne ≠ [Call.appNotFound]
      ∧ Call.appNotFound ∉ snippetView viewOne
      ∧ snippetView viewOne =
          [Call.infoLogPrint viewOne.URL,
           Call.write "<h1>Display a specific snippet with id = 1...</h1>"]
      ∧ (respond (snippetView viewOne)).status = some 200 := by
  refine ⟨?_, ?_, ?_, ?_, ?_, ?_⟩
  · intro t ht
    simp [emptyModel] at ht
  · decide
  · decide
  · decide
  · decide
  · decide

/-- C5, amended: for every valid id (an integer at least 1) for which the table
holds no matching row, `snippetView` does not consult the store: it logs the
URL and writes the placeholder page naming the id, with status 200, and does not
call `app.notFound`. -/
theorem snippetView_valid_id_placeholder (m : TaskModel) (r : Request) (id : Int)
    (hp : Atoi (r.URL.Query.Get "id") = (id, none)) (hid : 1 ≤ id)
    (_hmiss : ∀ t ∈ m.DB.rows, t.ID ≠ id) :
    snippetView r =
        [Call.infoLogPrint r.URL,
         Call.write ("<h1>Display a specific snippet with id = " ++ toString id ++ "...</h1>")]
      ∧ Call.appNotFound ∉ snippetView r
      ∧ (respond (snippetView r)).status = some 200
      ∧ (respond (snippetView r)).body
          = "<h1>Display a specific snippet with id = " ++ toString id ++ "...</h1>" := by
  rw [snippetView_of_accepted r id hp hid, respond_log_write]
  refine ⟨rfl, ?_, rfl, rfl⟩
  simp

/-- C5, amended, at `GET /snippet/view?id=1` over an empty table. -/
theorem snippetView_valid_id_placeholder_witness :
    (∀ t ∈ emptyModel.DB.rows, t.ID ≠ 1)
      ∧ (1 : Int) ≤ 1
      ∧ (respond (snippetView viewOne)).status = some 200
      ∧ (respond (snippetView viewOne)).body
          = "<h1>Display a specific snippet with id = " ++ toString (1 : Int) ++ "...</h1>" :=
  have hm : ∀ t ∈ emptyModel.DB.rows, t.ID ≠ 1 := by
    intro t ht
    simp [emptyModel] at ht
  have h := snippetView_valid_id_placeholder emptyModel viewOne 1 (by decide) (by decide) hm
  ⟨hm, by decide, h.2.2.1, h.2.2.2⟩

/-- C10 fails on the code: for `GET /` with template files that cannot be
parsed, `home` calls `app.serverError`, then writes a second error response with
`http.Error`, and, having no `return`, goes on to call `ExecuteTemplate` on the
nil template, which panics. -/
theorem home_parse_failure_falls_through :
    home missingTemplates getRoot =
        [Call.logPrint getRoot.URL,
         Call.parseFiles homeFiles,
         Call.appServerError "open ./ui/html/base.tmpl.html: no such file or directory",
         Call.httpError "Internal Server Error" 500,
         Call.executeTemplate none "base" "",
         Call.panic]
      ∧ (respond (home missingTemplates getRoot)).body
          = "Internal Server Error\nInternal Server Error\n" := by
  refine ⟨?_, ?_⟩
  · decide
  · decide

/-! ## Claims on the task model -/

/-- C6 fails on the code: `Insert` returns id 0 with no error for every title,
description and expiry, and the `Get` of that id returns no task (and no error),
so no task with the inserted title and description comes back. -/
theorem TaskModel.Insert_then_Get_no_task (m : TaskModel) (title description : String)
    (expires : Int) :
    (m.Insert title description expires).2 = none
      ∧ m.Get (m.Insert title description expires).1 = (none, none)
      ∧ ¬ ∃ t, (m.Get (m.Insert title description expires).1).1 = some t
          ∧ t.Title = title ∧ t.Description = description ∧ t.Created ≤ t.Expires := by
  refine ⟨rfl, rfl, ?_⟩
  rintro ⟨t, ht, _⟩
  simp [TaskModel.Get] at ht

/-- C7 fails on the code: `Insert` returns without an error for every input, and
the id it returns is 0, which is not positive. -/
theorem TaskModel.Insert_id_zero (m : TaskModel) (title description : String)
    (expires : Int) :
    m.Insert title description expires = (0, none)
      ∧ ¬ 0 < (m.Insert title description expires).1 := by
  refine ⟨rfl, ?_⟩
  simp [TaskModel.Insert]

/-- C8 fails on the code: for every id, `Get` returns both no task and no
error. -/
theorem TaskModel.Get_nil_nil (m : TaskModel) (id : Int) :
    m.Get id = (none, none)
      ∧ (m.Get id).1 = none ∧ (m.Get id).2 = none :=
  ⟨rfl, rfl, rfl⟩

/-- C9 fails on the code: on an empty table `Latest` returns no error, but the
sequence it returns is absent (a nil pointer), not a sequence of length 0. -/
theorem TaskModel.Latest_empty_store_nil :
    emptyModel.DB.rows = []
      ∧ emptyModel.Latest = (none, none)
      ∧ emptyModel.Latest.1 ≠ some [] := by
  refine ⟨rfl, rfl, ?_⟩
  simp [TaskModel.Latest]

end GoServerBasics
